import Mathlib

/-!
Shallow embedding of the llpy16 compiler (src/compiler.py, with the
llpy16 package's assembler and import context modelled separately in
namespace `LL16`).  Python's mutable compiler/assembler state is passed
explicitly as a `St` record; Python exceptions are modelled by the
`Except PyExc` result; a fuel parameter bounds recursion over nested
statement lists (mirroring the host interpreter's recursion limit) so
that every definition is structurally recursive and executable.
-/

namespace Llpy

/-- Python exceptions that can propagate out of the compiler. -/
inductive PyExc where
  | nameError (msg : String)
  | typeError
  | keyError
  | indexError
  | attributeError
  | unboundLocal
  | recursionError
deriving DecidableEq, Repr

/-- Augmented-assignment / binary operators (ast operator node kinds). -/
inductive AOp where
  | add | sub | mult | div | lshift | rshift | bitor | bitand | bitxor | other
deriving DecidableEq, Repr

/-- Comparison operators appearing in a while-loop test. -/
inductive CmpOp where
  | notEq | eq | gt | lt | other
deriving DecidableEq, Repr

/-- The expression subset of the Python AST that the compiler consumes. -/
inductive Expr where
  | num (n : Nat)
  | name (id : String)
  | attrE (value : Expr) (attr : String)
  | tup (elts : List Expr)
  | call (func : Expr) (args : List Expr)
  | compare (left : Expr) (ops : List CmpOp) (comparators : List Expr)
  | binop (left : Expr) (op : AOp) (right : Expr)

/-- The statement subset of the Python AST that the compiler consumes. -/
inductive Stmt where
  | assign (targets : List Expr) (value : Expr)
  | augAssign (target : Expr) (op : AOp) (value : Expr)
  | exprStmt (value : Expr)
  | funcDef (name : String) (args : List String) (body : List Stmt)
  | ret (value : Option Expr)
  | whileLoop (test : Expr) (body : List Stmt)

/-- A value in the Assembler's `_names` tree: Python stores either an int
(a defined variable) or a nested dict (a namespace) under each key. -/
inductive NVal where
  | num (n : Nat)
  | dict (entries : List (String × NVal))

/-- Association-list lookup (Python dict read). -/
def assocFind {α : Type} : List (String × α) → String → Option α
  | [], _ => none
  | (k0, v0) :: rest, k => if k0 = k then some v0 else assocFind rest k

/-- Association-list update (Python dict write: replace in place or append). -/
def assocSet {α : Type} : List (String × α) → String → α → List (String × α)
  | [], k, v => [(k, v)]
  | (k0, v0) :: rest, k, v =>
    if k0 = k then (k0, v) :: rest else (k0, v0) :: assocSet rest k v

/-- A function signature as stored in `Assembler._func_sigs`. -/
structure FuncSig where
  numArgs : Nat
  numRetValues : Nat
deriving DecidableEq, Repr

/-- The combined mutable state of `Assembler` and `Compiler`:
the two output segments, the loop-context stack, per-purpose counters,
the `_names` tree, the current namespace, local aliases, function
signatures, the function-compilation stack, and the diagnostic channel
(`error` sets `failed` and records the message; `warn` only records). -/
structure St where
  body : List String
  footer : List String
  inFooter : Bool
  loopstack : List (String × String)
  counters : List (String × Nat)
  names : List (String × NVal)
  currentNamespace : List String
  localAliases : List String
  funcSigs : List (String × FuncSig)
  funcStack : List FuncSig
  failed : Bool
  diagnostics : List String
  warnings : List String

/-- `Assembler.REGISTERS`. -/
def REGISTERS : List String := ["A", "B", "C", "X", "Y", "Z", "I", "J"]

/-- Append one line to whichever segment is currently active. -/
def appendCurrent (st : St) (line : String) : St :=
  if st.inFooter then {st with footer := st.footer ++ [line]}
  else {st with body := st.body ++ [line]}

/-- The text of one emitted instruction line. -/
def instructionLine (ins : String) (args : List String) : String :=
  ins ++ " " ++ String.intercalate ", " args

/-- `Assembler.write_instruction` (operands already rendered with str). -/
def write_instruction (st : St) (ins : String) (args : List String) : St :=
  appendCurrent st (instructionLine ins args)

/-- `Assembler.write_label`: mangles with the current namespace. -/
def write_label (st : St) (label : String) : St :=
  appendCurrent st (":" ++ String.intercalate "_" (st.currentNamespace ++ [label]))

/-- `Assembler.goto_label`. -/
def goto_label (st : St) (label : String) : St :=
  write_instruction st "SET" ["PC", label]

/-- `Assembler.pop_stack`. -/
def pop_stack (st : St) (into : String) : St :=
  write_instruction st "SET" [into, "POP"]

/-- `Assembler.push_stack`. -/
def push_stack (st : St) (value : String) : St :=
  write_instruction st "SET" ["PUSH", value]

/-- `Compiler.error`: mark the compilation failed and record a diagnostic. -/
def compErr (st : St) (msg : String) : St :=
  {st with failed := true, diagnostics := st.diagnostics ++ [msg]}

/-- `Compiler.warn`: record a warning without failing. -/
def warnSt (st : St) (msg : String) : St :=
  {st with warnings := st.warnings ++ [msg]}

/-- `Assembler.get_next_counter`: per-purpose counter, first value 1. -/
def get_next_counter (st : St) (key : String) : Nat × St :=
  let v := (assocFind st.counters key).getD 0 + 1
  (v, {st with counters := assocSet st.counters key v})

/-- The initial state: `Assembler.__init__` installs the halt trap in the
footer segment, then restores the body segment as current. -/
def initialState : St :=
  let st0 : St :=
    { body := [], footer := [], inFooter := false, loopstack := [],
      counters := [], names := [], currentNamespace := [],
      localAliases := [], funcSigs := [], funcStack := [],
      failed := false, diagnostics := [], warnings := [] }
  let st1 := {st0 with inFooter := true}
  let st2 := goto_label st1 "builtin_halt"
  let st3 := write_label st2 "builtin_halt"
  let st4 := goto_label st3 "builtin_halt"
  {st4 with inFooter := false}

/-- `Assembler.get_assembled` as a list of lines: body then footer. -/
def assembledLines (st : St) : List String := st.body ++ st.footer

/-- `Assembler.get_assembled` as the final output text. -/
def get_assembled (st : St) : String :=
  String.intercalate "\n"
    [String.intercalate "\n" st.body, String.intercalate "\n" st.footer]

/-- Walk the `_names` tree along a namespace path.  A missing key raises
KeyError; indexing into an int raises TypeError. -/
def ndictGet : List (String × NVal) → List String → Except PyExc (List (String × NVal))
  | d, [] => .ok d
  | d, b :: rest =>
    match assocFind d b with
    | none => .error .keyError
    | some (NVal.num _) => .error .typeError
    | some (NVal.dict sub) => ndictGet sub rest

/-- Write a value at a namespace path of the `_names` tree
(`Assembler.define_variable`). -/
def ndictSetPath : List (String × NVal) → List String → String → NVal →
    Except PyExc (List (String × NVal))
  | d, [], k, v => .ok (assocSet d k v)
  | d, b :: rest, k, v =>
    match assocFind d b with
    | none => .error .keyError
    | some (NVal.num _) => .error .typeError
    | some (NVal.dict sub) =>
      match ndictSetPath sub rest k v with
      | .error e => .error e
      | .ok sub2 => .ok (assocSet d b (NVal.dict sub2))

/-- The path-creating walk performed on entry to `Assembler.namespace`:
missing keys become fresh dicts; walking into an int raises TypeError
(partial mutations are kept, as in Python). -/
def ensurePath : List (String × NVal) → List String →
    (List (String × NVal)) × Except PyExc Unit
  | d, [] => (d, .ok ())
  | d, b :: rest =>
    match assocFind d b with
    | some (NVal.dict sub) =>
      let (sub2, r) := ensurePath sub rest
      (assocSet d b (NVal.dict sub2), r)
    | some (NVal.num _) =>
      match rest with
      | [] => (d, .ok ())
      | _ :: _ => (d, .error .typeError)
    | none =>
      let (sub2, r) := ensurePath [] rest
      (assocSet d b (NVal.dict sub2), r)

/-- `Assembler.get_in_current_namespace`. -/
def get_in_current_namespace (st : St) (key : String) : Except PyExc NVal :=
  match ndictGet st.names st.currentNamespace with
  | .error e => .error e
  | .ok d =>
    match assocFind d key with
    | none => .error .keyError
    | some v => .ok v

/-- The value produced by `resolve_nameish`/`resolve_registerish`:
a register name, an int, or (degenerately) a namespace dict. -/
inductive Resolved where
  | reg (r : String)
  | num (n : Nat)
  | ns (d : List (String × NVal))

def resolvedOfNVal : NVal → Resolved
  | .num n => .num n
  | .dict d => .ns d

mutual

/-- Rendering of a `_names` value, mirroring Python's str(). -/
def renderNVal : NVal → String
  | .num n => toString n
  | .dict d =>
    String.mk [Char.ofNat 123] ++
      String.intercalate ", " (renderNDictEntries d) ++
      String.mk [Char.ofNat 125]

/-- Rendering of the entries of a `_names` dict. -/
def renderNDictEntries : List (String × NVal) → List String
  | [] => []
  | (k, v) :: rest =>
    (String.mk [Char.ofNat 39] ++ k ++ String.mk [Char.ofNat 39] ++ ": " ++
      renderNVal v) :: renderNDictEntries rest

end

/-- Python str() of a resolved operand, as used by `write_instruction`. -/
def renderResolved : Resolved → String
  | .reg r => r
  | .num n => toString n
  | .ns d => renderNVal (.dict d)

/-- `Assembler.resolve_registerish`: a physical register resolves to
itself; a bound local alias resolves to the register at its index. -/
def resolve_registerish (st : St) (register : String) : Except PyExc String :=
  if register ∈ REGISTERS then .ok register
  else if register ∈ st.localAliases then
    .ok (REGISTERS.getD (st.localAliases.indexOf register) "")
  else .error (.nameError "")

/-- The attribute-chain walk shared by `resolve_nameish` and
`_resolve_func_call_name`: collects the dotted path, failing with
TypeError when the base is not a plain name. -/
def collectChain : Expr → Except PyExc (List String)
  | .name id => .ok [id]
  | .attrE v a =>
    match collectChain v with
    | .ok bits => .ok (bits ++ [a])
    | .error e => .error e
  | _ => .error .typeError

/-- `Assembler.resolve_nameish`.  The attribute branch enters the
namespace context manager, which (having no try/finally) creates the
path, switches the current namespace, and restores it only on normal
return — a raised NameError/TypeError leaves the namespace switched. -/
def resolve_nameish (st : St) (e : Expr) : St × Except PyExc Resolved :=
  match e with
  | .num n => (st, .ok (.num n))
  | .name id =>
    match resolve_registerish st id with
    | .ok r => (st, .ok (.reg r))
    | .error _ =>
      match get_in_current_namespace st id with
      | .ok v => (st, .ok (resolvedOfNVal v))
      | .error .keyError => (st, .error (.nameError id))
      | .error e => (st, .error e)
  | .attrE v a =>
    match collectChain v with
    | .error e => (st, .error e)
    | .ok bits =>
      let (names2, r) := ensurePath st.names bits
      match r with
      | .error e => ({st with names := names2}, .error e)
      | .ok _ =>
        let stIn := {st with names := names2, currentNamespace := bits}
        match get_in_current_namespace stIn a with
        | .ok v2 => ({stIn with currentNamespace := st.currentNamespace},
                     .ok (resolvedOfNVal v2))
        | .error .keyError => (stIn, .error (.nameError a))
        | .error e => (stIn, .error e)
  | _ => (st, .error .typeError)

/-- Python `str.startswith`, as a structurally recursive check over the
character lists. -/
def listStarts : List Char → List Char → Bool
  | _, [] => true
  | [], _ :: _ => false
  | c :: cs, p :: ps => c = p && listStarts cs ps

/-- `name.startswith(pre)`. -/
def strStarts (s pre : String) : Bool := listStarts s.data pre.data

/-- `Compiler._resolve_func_call_name`. -/
def resolveFuncCallName : Expr → Except PyExc String
  | .name id => .ok id
  | .attrE v a =>
    match collectChain (.attrE v a) with
    | .ok bits => .ok (String.intercalate "_" bits)
    | .error e => .error e
  | _ => .error .typeError

/-- The instruction mnemonic for each augmented-assignment operator. -/
def augInstruction : AOp → Option String
  | .add => some "ADD"
  | .sub => some "SUB"
  | .mult => some "MUL"
  | .div => some "DIV"
  | .lshift => some "SHL"
  | .rshift => some "SHR"
  | .bitor => some "BOR"
  | .bitand => some "AND"
  | .bitxor => some "XOR"
  | .other => none

/-- The inverted comparison instruction and its (possibly swapped) operand
order, as chosen by `handle_While`: Gt swaps the operands, Lt does not. -/
def cmpInstruction (op : CmpOp) (leftV rightV : String) :
    Option (String × String × String) :=
  match op with
  | .notEq => some ("IFE", leftV, rightV)
  | .eq => some ("IFN", leftV, rightV)
  | .gt => some ("IFG", rightV, leftV)
  | .lt => some ("IFG", leftV, rightV)
  | .other => none

/-- The shared tail of `Compiler._assign`: check the target is a plain
name, resolve it to a register or alias, resolve the value, then emit. -/
def assign_target (ins : String) (target : Expr) (value : Expr) (st : St) :
    St × Except PyExc Unit :=
  match target with
  | .name tid =>
    match resolve_registerish st tid with
    | .error _ =>
      (compErr st ("Invalid assignment, target register or local alias " ++
        tid ++ " not found"), .ok ())
    | .ok register =>
      match resolve_nameish st value with
      | (st2, .error .typeError) =>
        (compErr st2 "Invalid assignment, value type not valid.", .ok ())
      | (st2, .error (.nameError m)) =>
        (compErr st2 ("Invalid assignment, variable " ++ m ++ " not found."),
          .ok ())
      | (st2, .error e) => (st2, .error e)
      | (st2, .ok v) =>
        (write_instruction st2 ins [register, renderResolved v], .ok ())
  | _ => (compErr st "Invalid assignment, target must be register name.", .ok ())

/-- `Compiler._assign` on an Assign node (target list of length one). -/
def assign_targets (ins : String) (targets : List Expr) (value : Expr)
    (st : St) : St × Except PyExc Unit :=
  match targets with
  | [t] => assign_target ins t value st
  | _ => (compErr st "Invalid assignment, too many targets.", .ok ())

/-- The argument-push loop of `handle_Call`: resolve each argument and
push it; a resolution failure records a diagnostic and abandons the call
(result false). -/
def pushCallArgs : List Expr → St → St × Except PyExc Bool
  | [], st => (st, .ok true)
  | a :: rest, st =>
    match resolve_nameish st a with
    | (st2, .error (.nameError _)) =>
      (compErr st2 "Function argument not found", .ok false)
    | (st2, .error .typeError) =>
      (compErr st2 "Invalid function argument", .ok false)
    | (st2, .error e) => (st2, .error e)
    | (st2, .ok v) => pushCallArgs rest (push_stack st2 (renderResolved v))

/-- `Assembler.handle_builtin_continue`. -/
def handle_builtin_continue (st : St) : St × Except PyExc Unit :=
  match st.loopstack.getLast? with
  | none => (compErr st "Cannot continue outside loop", .ok ())
  | some (startL, _) => (goto_label st startL, .ok ())

/-- `Assembler.handle_builtin_break`. -/
def handle_builtin_break (st : St) : St × Except PyExc Unit :=
  match st.loopstack.getLast? with
  | none => (compErr st "Cannot break outside loop", .ok ())
  | some (_, endL) => (goto_label st endL, .ok ())

/-- One operand resolution inside `handle_builtin_memset`, where both
TypeError and NameError are caught and reported. -/
def memsetResolve (st : St) (e : Expr) (msg : String) :
    St × Except PyExc (Option String) :=
  match resolve_nameish st e with
  | (st2, .error (.nameError _)) => (compErr st2 msg, .ok none)
  | (st2, .error .typeError) => (compErr st2 msg, .ok none)
  | (st2, .error err) => (st2, .error err)
  | (st2, .ok v) => (st2, .ok (some (renderResolved v)))

/-- `Assembler.handle_builtin_memset`.  The final resolution of the value
argument is not wrapped in a try block, so its failures propagate. -/
def handle_builtin_memset (args : List Expr) (st : St) :
    St × Except PyExc Unit :=
  match args with
  | [location, value] =>
    let step : St × Except PyExc (Option String) :=
      match location with
      | .binop left op right =>
        if op ≠ AOp.add then
          (compErr st "Only + operator is allowed in memset arg one binop",
            .ok none)
        else
          match memsetResolve st left "Invalid left value in memset arg one binop" with
          | (stA, .ok (some lv)) =>
            match memsetResolve stA right "Invalid right value in memset arg one binop" with
            | (stB, .ok (some rv)) => (stB, .ok (some (lv ++ "+" ++ rv)))
            | other => other
          | other => other
      | _ => memsetResolve st location "Invalid location value in memset"
    match step with
    | (st2, .error e) => (st2, .error e)
    | (st2, .ok none) => (st2, .ok ())
    | (st2, .ok (some locv)) =>
      match resolve_nameish st2 value with
      | (st3, .error e) => (st3, .error e)
      | (st3, .ok v) =>
        (write_instruction st3 "SET" ["[" ++ locv ++ "]", renderResolved v],
          .ok ())
  | _ =>
    (compErr st "builtin_halt must be called with exactly two arguments",
      .ok ())

/-- `Assembler.define_variable`. -/
def define_variable (st : St) (key : String) (value : Nat) :
    St × Except PyExc Unit :=
  match ndictSetPath st.names st.currentNamespace key (NVal.num value) with
  | .error e => (st, .error e)
  | .ok names2 => ({st with names := names2}, .ok ())

/-- The loop of `Assembler.handle_builtin_define_enumerate`: a non-name
argument records a diagnostic but the loop keeps counting. -/
def enumLoop : List Expr → Nat → St → St × Except PyExc Unit
  | [], _, st => (st, .ok ())
  | arg :: rest, value, st =>
    match arg with
    | .name id =>
      match define_variable st id value with
      | (st2, .error e) => (st2, .error e)
      | (st2, .ok _) => enumLoop rest (value + 1) st2
    | _ =>
      enumLoop rest (value + 1)
        (compErr st "Invalid argument to builtin_define_enumerate, expected name")

/-- `Assembler.handle_builtin_define_enumerate`. -/
def handle_builtin_define_enumerate (args : List Expr) (st : St) :
    St × Except PyExc Unit :=
  enumLoop args 0 st

/-- The builtin dispatch of `handle_Call`: `getattr` finds the handler
named after the call.  `handle_builtin_halt` accepts a single argument
but the dispatcher passes two, so calling it raises TypeError. -/
def handleBuiltin (callName : String) (args : List Expr) (st : St) :
    St × Except PyExc Unit :=
  if callName = "builtin_halt" then (st, .error .typeError)
  else if callName = "builtin_memset" then handle_builtin_memset args st
  else if callName = "builtin_continue" then handle_builtin_continue st
  else if callName = "builtin_break" then handle_builtin_break st
  else if callName = "builtin_define_enumerate" then
    handle_builtin_define_enumerate args st
  else (compErr st ("Unknown builtin " ++ callName), .ok ())

/-- `Compiler.handle_Call`.  On an argument-count mismatch the source
interpolates a diagnostic with three placeholders but only two values,
so the string formatting raises TypeError before `Compiler.error` runs:
no diagnostic is recorded and the exception propagates. -/
def handle_Call (f : Expr) (args : List Expr) (st : St) :
    St × Except PyExc Unit :=
  match resolveFuncCallName f with
  | .error _ => (compErr st "Invalid call func, expected name", .ok ())
  | .ok callName =>
    if strStarts callName "builtin_" then handleBuiltin callName args st
    else
      match assocFind st.funcSigs callName with
      | none => (compErr st ("Undefined function " ++ callName), .ok ())
      | some sig =>
        if args.length ≠ sig.numArgs then (st, .error .typeError)
        else
          match pushCallArgs args st with
          | (st2, .error e) => (st2, .error e)
          | (st2, .ok false) => (st2, .ok ())
          | (st2, .ok true) => (write_instruction st2 "JSR" [callName], .ok ())

/-- The pop loop of `Compiler._call_assign`: pop the stack into each
target, walking the target list in reverse. -/
def popTargets : List Expr → St → St × Except PyExc Unit
  | [], st => (st, .ok ())
  | t :: rest, st =>
    match resolve_nameish st t with
    | (st2, .error (.nameError _)) =>
      (compErr st2 "Cannot assign to name, name not found", .ok ())
    | (st2, .error .typeError) => (compErr st2 "Cannot assign to type", .ok ())
    | (st2, .error e) => (st2, .error e)
    | (st2, .ok v) => popTargets rest (pop_stack st2 (renderResolved v))

/-- `Compiler._call_assign`: an assignment whose right-hand side is a
call; the target count must equal the callee's return-value count, then
the call is rendered and the targets are popped in reverse order. -/
def call_assign (targets : List Expr) (f : Expr) (args : List Expr)
    (st : St) : St × Except PyExc Unit :=
  match resolveFuncCallName f with
  | .error _ => (compErr st "Invalid call func, expected name", .ok ())
  | .ok funcName =>
    match assocFind st.funcSigs funcName with
    | none => (compErr st "Call to undefined function None", .ok ())
    | some sig =>
      if targets.length ≠ sig.numRetValues then
        (compErr st ("Function " ++ funcName ++ " has " ++
          toString sig.numRetValues ++ " return values, but only " ++
          toString targets.length ++ " are given"), .ok ())
      else
        match handle_Call f args st with
        | (st2, .error e) => (st2, .error e)
        | (st2, .ok _) => popTargets targets.reverse st2

/-- `handle_Expr` dispatch on the inner value: only calls have a
handler; anything else is an unsupported node warning. -/
def handleExprValue (e : Expr) (st : St) : St × Except PyExc Unit :=
  match e with
  | .call f args => handle_Call f args st
  | _ => (warnSt st "Unsupported node", .ok ())

/-- Write `num_ret_values` into the signature on top of the function
stack (`self._func_stack[-1]`); IndexError when the stack is empty. -/
def setTopRet (st : St) (n : Nat) : St × Except PyExc Unit :=
  match st.funcStack.getLast? with
  | none => (st, .error .indexError)
  | some sig =>
    ({st with funcStack :=
        st.funcStack.dropLast ++ [{sig with numRetValues := n}]}, .ok ())

/-- The push loop of `handle_Return` on a tuple value. -/
def pushRetElts : List Expr → St → St × Except PyExc Bool
  | [], st => (st, .ok true)
  | e :: rest, st =>
    match resolve_nameish st e with
    | (st2, .error (.nameError _)) =>
      (compErr st2 "Could not resolve name", .ok false)
    | (st2, .error err) => (st2, .error err)
    | (st2, .ok v) => pushRetElts rest (push_stack st2 (renderResolved v))

/-- `Compiler.handle_Return`: a name pushes one value, a tuple pushes its
elements left to right, and the count is then written over the top
signature's `num_ret_values`.  Any other value shape leaves the local
`num_ret_values` unassigned and the final assignment raises
UnboundLocalError. -/
def handle_Return (v : Option Expr) (st : St) : St × Except PyExc Unit :=
  match v with
  | some (.name id) =>
    match resolve_nameish st (.name id) with
    | (st2, .error (.nameError _)) =>
      (compErr st2 "Could not resolve name", .ok ())
    | (st2, .error e) => (st2, .error e)
    | (st2, .ok r) => setTopRet (push_stack st2 (renderResolved r)) 1
  | some (.tup elts) =>
    match pushRetElts elts st with
    | (st2, .error e) => (st2, .error e)
    | (st2, .ok false) => (st2, .ok ())
    | (st2, .ok true) => setTopRet st2 elts.length
  | _ => (st, .error .unboundLocal)

/-- The argument-unload loop of `handle_FunctionDef`: iterate the indices
in reverse, popping the stack into each argument register and prepending
the argument name to the alias list. -/
def unloadArgsLoop (args : List String) (idxs : List Nat) (st : St)
    (aliases : List String) : St × List String :=
  match idxs with
  | [] => (st, aliases)
  | i :: rest =>
    unloadArgsLoop args rest (pop_stack st (REGISTERS.getD i ""))
      (args.getD i "" :: aliases)

/-- `Compiler.handle_FunctionDef`, parameterised by the compilation of
the body (`runBody`).  The footer and local-alias context managers have
no try/finally, so neither is restored when the body raises, and the
function stack entry is then not popped either. -/
def handle_FunctionDef (defName : String) (args : List String)
    (runBody : St → St × Except PyExc Unit) (st : St) :
    St × Except PyExc Unit :=
  if strStarts defName "builtin_" then
    (compErr st ("Invalid function name " ++ defName ++
      ", the builtin prefix is reserved for builtins"), .ok ())
  else
    let numArgs := args.length
    if numArgs > 7 then
      (compErr st "Function definitions may not take more than seven arguments!",
        .ok ())
    else
      let oldInFooter := st.inFooter
      let st1 := {st with inFooter := true}
      let st2 := write_label st1 defName
      let st3 := pop_stack st2 "J"
      let (st4, aliases) := unloadArgsLoop args ((List.range numArgs).reverse) st3 []
      let st5 := {st4 with funcStack := st4.funcStack ++ [FuncSig.mk numArgs 0]}
      let oldAliases := st5.localAliases
      let st6 := {st5 with localAliases := aliases}
      match runBody st6 with
      | (st7, .error e) => (st7, .error e)
      | (st7, .ok _) =>
        let st8 := {st7 with localAliases := oldAliases}
        let st9 := goto_label st8 "J"
        match st9.funcStack.getLast? with
        | none => (st9, .error .indexError)
        | some sig =>
          ({st9 with
              funcStack := st9.funcStack.dropLast,
              funcSigs := assocSet st9.funcSigs
                (String.intercalate "_" (st9.currentNamespace ++ [defName])) sig,
              inFooter := oldInFooter}, .ok ())

/-- `Compiler.handle_While`, parameterised by the compilation of the body
(`runBody`).  The start label is written before the test is validated; a
non-Compare test records a diagnostic and then raises AttributeError on
the comparator access.  The loop context manager has no try/finally, so
a body exception leaves the loop context pushed.  At the end the source
writes the start label again instead of the end label. -/
def handle_While (test : Expr) (runBody : St → St × Except PyExc Unit)
    (st : St) : St × Except PyExc Unit :=
  let (num, st0) := get_next_counter st "loop"
  let startLabel := "builtin_loop_" ++ toString num ++ "_start"
  let endLabel := "builtin_loop_" ++ toString num ++ "_end"
  let st1 := write_label st0 startLabel
  match test with
  | .compare left ops comparators =>
    let st2 :=
      if comparators.length ≠ 1 then
        compErr st1 "Invalid while loop test, only one comparator allowed."
      else st1
    match comparators with
    | [] => (st2, .error .indexError)
    | right :: _ =>
      match resolve_nameish st2 right with
      | (st3, .error .typeError) =>
        (compErr st3 "Invalid right hand side comparator in while loop test",
          .ok ())
      | (st3, .error (.nameError _)) =>
        (compErr st3 "Invalid right hand side comparator in while loop, variable not found.",
          .ok ())
      | (st3, .error e) => (st3, .error e)
      | (st3, .ok rightV) =>
        match resolve_nameish st3 left with
        | (st4, .error .typeError) =>
          (compErr st4 "Invalid left hand side comparator in while loop test",
            .ok ())
        | (st4, .error (.nameError _)) =>
          (compErr st4 "Invalid left hand side comparator in while loop, variable not found.",
            .ok ())
        | (st4, .error e) => (st4, .error e)
        | (st4, .ok leftV) =>
          match ops with
          | [op] =>
            match cmpInstruction op (renderResolved leftV) (renderResolved rightV) with
            | none =>
              (compErr st4 "Invalid while loop test operator, must be NotEq, Eq, Gt or Lt.",
                .ok ())
            | some (ins, x, y) =>
              let st5 := write_instruction st4 ins [x, y]
              let st6 := goto_label st5 endLabel
              let st7 := {st6 with loopstack := st6.loopstack ++ [(startLabel, endLabel)]}
              match runBody st7 with
              | (st8, .error e) => (st8, .error e)
              | (st8, .ok _) =>
                let st9 := {st8 with loopstack := st8.loopstack.dropLast}
                let st10 := goto_label st9 startLabel
                (write_label st10 startLabel, .ok ())
          | _ =>
            (compErr st4 "Invalid while loop test operator, only one operator may be used",
              .ok ())
  | _ =>
    (compErr st1 "Unexpected test in while loop, expected Compare",
      .error .attributeError)

/-- One pass of `handle_Module`'s statement loop: run each statement in
turn, stopping when one raises. -/
def runSeq (step : Stmt → St → St × Except PyExc Unit) :
    List Stmt → St → St × Except PyExc Unit
  | [], st => (st, .ok ())
  | s :: rest, st =>
    match step s st with
    | (st2, .ok _) => runSeq step rest st2
    | (st2, .error e) => (st2, .error e)

/-- `Compiler.handle` dispatch over one statement.  The fuel bounds the
statement-nesting depth (the host interpreter's recursion limit); all
theorems use sufficient fuel. -/
def handleStmt : Nat → Stmt → St → St × Except PyExc Unit
  | 0, _, st => (st, .error .recursionError)
  | fuel + 1, s, st =>
    match s with
    | .assign targets value =>
      match value with
      | .call f args => call_assign targets f args st
      | _ => assign_targets "SET" targets value st
    | .augAssign target op value =>
      match augInstruction op with
      | none =>
        (compErr st "Invalid augmented assignment, operator not supported",
          .ok ())
      | some ins => assign_target ins target value st
    | .exprStmt e => handleExprValue e st
    | .funcDef defName args body =>
      handle_FunctionDef defName args (runSeq (handleStmt fuel) body) st
    | .ret v => handle_Return v st
    | .whileLoop test body =>
      handle_While test (runSeq (handleStmt fuel) body) st

/-- `handle_Module`: compile a statement list. -/
def handleStmts (fuel : Nat) (stmts : List Stmt) (st : St) :
    St × Except PyExc Unit :=
  runSeq (handleStmt fuel) stmts st

/-- `Compiler.compile` from a fresh assembler: parse is external, so the
input is the statement list. -/
def compileProgram (fuel : Nat) (stmts : List Stmt) : St × Except PyExc Unit :=
  handleStmts fuel stmts initialState

namespace LL16

/-!
Embedding of the llpy16 package variant: the hexifying assembler of
src/llpy16/assembler.py and the import resolution of
src/llpy16/context.py.  Dynamic module loading (`imp.load_source`) is
abstracted: the filesystem is an environment mapping paths to artifacts,
a native extension module is its registered names, and running its init
hook is modelled by incrementing the `initCalls` counter (the counted
side effect of an init hook). -/

/-- An operand handed to the llpy16 assembler: an int or a string. -/
inductive Val where
  | str (s : String)
  | num (n : Nat)

def hexDigitChar (n : Nat) : Char :=
  if n < 10 then Char.ofNat (48 + n) else Char.ofNat (87 + n)

def hexCharsAux : Nat → Nat → List Char
  | 0, _ => []
  | fuel + 1, n =>
    if n < 16 then [hexDigitChar n]
    else hexCharsAux fuel (n / 16) ++ [hexDigitChar (n % 16)]

/-- The lowercase hexadecimal digits of a number. -/
def hexChars (n : Nat) : List Char := hexCharsAux (n + 1) n

/-- Python `'0x%04x' % n`: zero-padded to at least four digits. -/
def hexPad (n : Nat) : String :=
  let s := hexChars n
  "0x" ++ String.mk (List.replicate (4 - s.length) (Char.ofNat 48)) ++
    String.mk s

/-- A decimal digit character. -/
def isDigitChar (c : Char) : Bool := 48 ≤ c.toNat && c.toNat ≤ 57

/-- Python `str.isdigit` (empty strings are not digit strings). -/
def isDigits (l : List Char) : Bool := !l.isEmpty && l.all isDigitChar

/-- Parse a digit string as a decimal number. -/
def parseDigits (l : List Char) : Nat :=
  l.foldl (fun acc c => acc * 10 + (c.toNat - 48)) 0

/-- `llpy16.assembler.hexify`: ints and digit strings become fixed-width
hexadecimal, a bracketed digit string keeps its brackets, anything else
passes through as str. -/
def hexify : Val → String
  | .num n => hexPad n
  | .str s =>
    if isDigits s.data then hexPad (parseDigits s.data)
    else if s.data.head? = some (Char.ofNat 91) &&
        s.data.getLast? = some (Char.ofNat 93) &&
        isDigits ((s.data.drop 1).dropLast) then
      String.mk [Char.ofNat 91] ++ hexPad (parseDigits ((s.data.drop 1).dropLast)) ++
        String.mk [Char.ofNat 93]
    else s

/-- `llpy16.assembler.Assembler.write_instruction`: the text of one
emitted line, with every operand passed through `hexify`. -/
def write_instruction_line (ins : String) (args : List Val) : String :=
  ins ++ " " ++ String.intercalate ", " (args.map hexify)

/-- A native extension module's registrations, as read off its
LLPY16_EXTS / LLPY16_CONST attributes, plus whether it has a callable
init hook (LLPY16_INIT). -/
structure ExtMod where
  exts : List String
  consts : List (String × Nat)
  hasInitHook : Bool

/-- The search-path filesystem: native modules under .py paths and
source modules under .llpy16 paths. -/
structure Env where
  pyFiles : List (String × ExtMod)
  llFiles : List (String × String)

/-- One namespace of `llpy16.context.Context`. -/
structure NSpace where
  constants : List (String × Nat)
  extensions : List String

def emptyNSpace : NSpace := ⟨[], []⟩

/-- The state of `llpy16.context.Context`: note `_modules`, the list the
already-imported check reads. -/
structure Ctx where
  paths : List String
  namespaces : List (String × NSpace)
  currentNamespace : String
  modules : List String
  initCalls : Nat

/-- Update the current namespace record (defaultdict semantics). -/
def updNSpace (ctx : Ctx) (f : NSpace → NSpace) : Ctx :=
  let cur := (assocFind ctx.namespaces ctx.currentNamespace).getD emptyNSpace
  {ctx with namespaces := assocSet ctx.namespaces ctx.currentNamespace (f cur)}

/-- `Context.define_extension` (the handler itself is opaque; its key is
recorded). -/
def define_extension (ctx : Ctx) (extName : String) : Ctx :=
  updNSpace ctx (fun ns =>
    {ns with extensions :=
      if extName ∈ ns.extensions then ns.extensions
      else ns.extensions ++ [extName]})

/-- `Context.define_constant`. -/
def define_constant (ctx : Ctx) (key : String) (value : Nat) : Ctx :=
  updNSpace ctx (fun ns => {ns with constants := assocSet ns.constants key value})

/-- Loading a native extension module inside `find_import`: enter the
namespace, register extensions and constants, run the init hook, restore
the namespace (this context manager does use try/finally). -/
def loadExtMod (ctx : Ctx) (modName : String) (m : ExtMod) : Ctx :=
  let old := ctx.currentNamespace
  let c1 := {ctx with currentNamespace := modName}
  let c2 := m.exts.foldl define_extension c1
  let c3 := m.consts.foldl (fun c kv => define_constant c kv.1 kv.2) c2
  let c4 := if m.hasInitHook then {c3 with initCalls := c3.initCalls + 1} else c3
  {c4 with currentNamespace := old}

/-- Split a dotted module name on the dot character. -/
def splitDots (s : String) : List String :=
  (s.data.foldr
    (fun c acc =>
      if c = Char.ofNat 46 then [] :: acc
      else
        match acc with
        | [] => [[c]]
        | g :: gs => (c :: g) :: gs)
    [[]]).map String.mk

/-- `os.path.join(path, *name.split('.')) + ext`. -/
def modPath (root : String) (modName : String) (ext : String) : String :=
  root ++ "/" ++ String.intercalate "/" (splitDots modName) ++ ext

/-- The search loop of `Context.find_import` over the path roots. -/
def findImportLoop (env : Env) (modName : String) :
    List String → Ctx → Ctx × Except Unit (Option String)
  | [], ctx => (ctx, .error ())
  | p :: rest, ctx =>
    let step : Ctx × Bool :=
      match assocFind env.pyFiles (modPath p modName ".py") with
      | some m => (loadExtMod ctx modName m, true)
      | none => (ctx, false)
    match assocFind env.llFiles (modPath p modName ".llpy16") with
    | some src => (step.1, .ok (some src))
    | none =>
      if step.2 then (step.1, .ok none)
      else findImportLoop env modName rest step.1

/-- `Context.find_import`: returns the source of a .llpy16 module for
recursive compilation, or nothing after loading a native extension.  The
already-imported guard reads `_modules`, but no code path ever appends
to `_modules`, so the guard can never fire. -/
def find_import (env : Env) (modName : String) (ctx : Ctx) :
    Ctx × Except Unit (Option String) :=
  if modName ∈ ctx.modules then (ctx, .ok none)
  else findImportLoop env modName ctx.paths ctx

end LL16

/-! ### Concrete programs used by the theorems -/

/-- Scenario A of the spec: `A = 5; B = A`. -/
def scenarioA : List Stmt :=
  [.assign [.name "A"] (.num 5), .assign [.name "B"] (.name "A")]

/-- Scenario B of the spec: `while A != 0: A -= 1`. -/
def scenarioB : List Stmt :=
  [.whileLoop (.compare (.name "A") [.notEq] [.num 0])
    [.augAssign (.name "A") .sub (.num 1)]]

/-- A while loop whose body contains a while loop with an unsupported
(non-comparison) test, which makes the inner `handle_While` raise
AttributeError after recording its diagnostic. -/
def nestedWhileProg : List Stmt :=
  [.whileLoop (.compare (.name "A") [.notEq] [.num 0])
    [.whileLoop (.num 1) []]]

/-- A function definition whose body raises while being compiled. -/
def funcCrashProg : List Stmt :=
  [.funcDef "f" ["x"] [.whileLoop (.num 1) []]]

/-- An assignment whose value is the dotted reference `a.b`, where
namespace `a` exists (it is created during resolution) but has no
member `b`, so resolution raises NameError inside the namespace scope. -/
def nsLeakProg : List Stmt :=
  [.assign [.name "A"] (.attrE (.name "a") "b")]

/-- A module-level `builtin_break()` followed by an independent
assignment statement. -/
def breakTopProg : List Stmt :=
  [.exprStmt (.call (.name "builtin_break") []), .assign [.name "A"] (.num 5)]

/-- `def f(x): return x` followed by a zero-argument call `f()` whose
argument count does not match the one-parameter signature. -/
def badArityCallProg : List Stmt :=
  [.funcDef "f" ["x"] [.ret (some (.name "x"))],
   .exprStmt (.call (.name "f") [])]

/-- `def f(x): return x` followed by the matching call `f(3)`. -/
def goodArityCallProg : List Stmt :=
  [.funcDef "f" ["x"] [.ret (some (.name "x"))],
   .exprStmt (.call (.name "f") [.num 3])]

/-- `def g(a, b): return a; return a, b` — two return statements with
divergent arities (1 and then 2). -/
def divergentReturnsProg : List Stmt :=
  [.funcDef "g" ["a", "b"]
    [.ret (some (.name "a")), .ret (some (.tup [.name "a", .name "b"]))]]

/-- A search-path environment holding one native extension module `m`
(at lib/m.py) with an init hook and no other artifacts. -/
def c4Env : LL16.Env := ⟨[("lib/m.py", ⟨[], [], true⟩)], []⟩

/-- A fresh import context over the single search root `lib`. -/
def c4Ctx : LL16.Ctx := ⟨["lib"], [], "", [], 0⟩

/-- The context after importing `m` once. -/
def c4After1 : LL16.Ctx := (LL16.find_import c4Env "m" c4Ctx).1

/-- The context after importing `m` a second time. -/
def c4After2 : LL16.Ctx := (LL16.find_import c4Env "m" c4After1).1

/-- A state whose function-signature table has a zero-argument
two-return function `g` (as produced by compiling `return x, y`). -/
def c3State : St := {initialState with funcSigs := [("g", ⟨0, 2⟩)]}

/-- A state in the middle of compiling a two-argument function body
(footer active, one signature on the function stack with return count
still 0). -/
def c8ReturnState : St :=
  {initialState with funcStack := [⟨2, 0⟩], inFooter := true}

/-- A state with one active loop context. -/
def c9LoopState : St := {initialState with loopstack := [("ls", "le")]}

/-! ### Helper lemmas -/

theorem write_instruction_body_eq (st : St) (ins : String) (args : List String)
    (h : st.inFooter = false) :
    write_instruction st ins args =
      {st with body := st.body ++ [instructionLine ins args]} := by
  simp [write_instruction, appendCurrent, h]

theorem write_instruction_footer_eq (st : St) (ins : String) (args : List String)
    (h : st.inFooter = true) :
    write_instruction st ins args =
      {st with footer := st.footer ++ [instructionLine ins args]} := by
  simp [write_instruction, appendCurrent, h]

theorem pushCallArgs_nums (ns : List Nat) (st : St) (h : st.inFooter = false) :
    pushCallArgs (ns.map Expr.num) st =
      ({st with body := st.body ++
          ns.map (fun n => instructionLine "SET" ["PUSH", toString n])},
        .ok true) := by
  induction ns generalizing st with
  | nil => simp [pushCallArgs]
  | cons n rest ih =>
    simp only [List.map_cons, pushCallArgs, resolve_nameish, renderResolved,
      push_stack]
    rw [write_instruction_body_eq st _ _ h]
    simp [ih, h, List.append_assoc]

theorem popTargets_regs (rs : List String) (st : St)
    (hr : ∀ r ∈ rs, r ∈ REGISTERS) (hfoot : st.inFooter = false) :
    popTargets (rs.map Expr.name) st =
      ({st with body := st.body ++
          rs.map (fun r => instructionLine "SET" [r, "POP"])}, .ok ()) := by
  induction rs generalizing st with
  | nil => simp [popTargets]
  | cons r rest ih =>
    have hrR : r ∈ REGISTERS := hr r (by simp)
    have hrest : ∀ a ∈ rest, a ∈ REGISTERS :=
      fun a ha => hr a (List.mem_cons_of_mem _ ha)
    simp only [List.map_cons, popTargets, resolve_nameish, resolve_registerish,
      hrR, if_true, renderResolved, pop_stack]
    rw [write_instruction_body_eq st _ _ hfoot]
    have step := ih
      ({st with body := st.body ++ [instructionLine "SET" [r, "POP"]]})
      hrest hfoot
    rw [step]
    simp [List.append_assoc]

theorem handle_Call_nums (st : St) (fname : String) (sig : FuncSig)
    (argNums : List Nat)
    (hsig : assocFind st.funcSigs fname = some sig)
    (hpre : strStarts fname "builtin_" = false)
    (hargs : argNums.length = sig.numArgs)
    (hfoot : st.inFooter = false) :
    handle_Call (Expr.name fname) (argNums.map Expr.num) st =
      ({st with body := st.body ++
          argNums.map (fun n => instructionLine "SET" ["PUSH", toString n]) ++
          [instructionLine "JSR" [fname]]}, .ok ()) := by
  simp only [handle_Call, resolveFuncCallName, hpre, Bool.false_eq_true,
    if_false, hsig, List.length_map, hargs, ne_eq, not_true_eq_false]
  rw [pushCallArgs_nums _ _ hfoot]
  simp [write_instruction_body_eq, hfoot, List.append_assoc]

theorem pushRetElts_regs (rs : List String) (st : St)
    (hr : ∀ r ∈ rs, r ∈ REGISTERS) (hfoot : st.inFooter = true) :
    pushRetElts (rs.map Expr.name) st =
      ({st with footer := st.footer ++
          rs.map (fun r => instructionLine "SET" ["PUSH", r])}, .ok true) := by
  induction rs generalizing st with
  | nil => simp [pushRetElts]
  | cons r rest ih =>
    have hrR : r ∈ REGISTERS := hr r (by simp)
    have hrest : ∀ a ∈ rest, a ∈ REGISTERS :=
      fun a ha => hr a (List.mem_cons_of_mem _ ha)
    simp only [List.map_cons, pushRetElts, resolve_nameish, resolve_registerish,
      hrR, if_true, renderResolved, push_stack]
    rw [write_instruction_footer_eq st _ _ hfoot]
    have step := ih
      ({st with footer := st.footer ++ [instructionLine "SET" ["PUSH", r]]})
      hrest hfoot
    rw [step]
    simp [List.append_assoc]

theorem unloadArgsLoop_aliases (args : List String) :
    ∀ n, n ≤ args.length → ∀ (st : St) (acc : List String),
      (unloadArgsLoop args ((List.range n).reverse) st acc).2 =
        args.take n ++ acc := by
  intro n
  induction n with
  | zero => intro _ st acc; simp [unloadArgsLoop]
  | succ n ih =>
    intro hn st acc
    have hlt : n < args.length := hn
    have htake : args.take (n + 1) = args.take n ++ [args[n]] := by
      rw [List.take_succ]
      simp [List.getElem?_eq_getElem hlt]
    rw [List.range_succ, List.reverse_append, List.reverse_singleton,
      List.singleton_append]
    simp only [unloadArgsLoop]
    rw [ih (by omega), List.getD_eq_getElem args "" hlt, htake,
      List.append_assoc]
    rfl

/-! ### Theorems -/

/-- C1: lowering `while A != 0: A -= 1` emits the loop-start label, the
inverted comparison, the jump to the loop-end label, the body, and the
jump back — but the final label written is the loop-start label again:
the loop-end label line never appears in the output, so the emitted
sequence ends with a duplicate start label instead of the end label the
claim describes. -/
theorem c1_while_end_label_bug :
    (compileProgram 5 scenarioB).1.body =
      [":builtin_loop_1_start", "IFE A, 0", "SET PC, builtin_loop_1_end",
       "SUB A, 1", "SET PC, builtin_loop_1_start", ":builtin_loop_1_start"] ∧
    (compileProgram 5 scenarioB).2 = .ok () ∧
    ":builtin_loop_1_end" ∉ assembledLines (compileProgram 5 scenarioB).1 := by
  exact ⟨by decide, rfl, by decide⟩

/-- C2: label uniqueness fails — compiling a single while loop emits the
label line `:builtin_loop_1_start` twice into the assembled output,
because `handle_While` writes the start label where the end label was
intended. -/
theorem c2_duplicate_label_line :
    (assembledLines (compileProgram 5 scenarioB).1).count
      ":builtin_loop_1_start" = 2 := by
  decide

/-- C4: importing the same native module twice runs its registration and
init hook twice: `find_import`'s already-imported guard reads the
`_modules` list, but nothing ever appends to it, so the second import is
not a no-op and the counted init side effect fires again. -/
theorem c4_import_not_idempotent :
    c4After1.initCalls = 1 ∧ c4After2.initCalls = 2 ∧
    c4After2.modules = [] := by
  exact ⟨rfl, rfl, rfl⟩

/-- C5: none of the three scoping disciplines restores state on the
exception exit path.  A body exception escapes the loop scope with the
loop context still pushed; it escapes a function definition with the
local aliases (and footer segment) still installed; and a resolution
error inside the namespace scope leaves the current namespace switched
even though compilation continues afterwards. -/
theorem c5_scoping_not_restored_on_error :
    (compileProgram 5 nestedWhileProg).2 = .error .attributeError ∧
    (compileProgram 5 nestedWhileProg).1.loopstack =
      [("builtin_loop_1_start", "builtin_loop_1_end")] ∧
    (compileProgram 5 funcCrashProg).2 = .error .attributeError ∧
    (compileProgram 5 funcCrashProg).1.localAliases = ["x"] ∧
    (compileProgram 5 funcCrashProg).1.inFooter = true ∧
    (compileProgram 5 nsLeakProg).2 = .ok () ∧
    (compileProgram 5 nsLeakProg).1.currentNamespace = ["a"] ∧
    (compileProgram 5 nsLeakProg).1.failed = true := by
  exact ⟨rfl, by decide, rfl, by decide, rfl, rfl, by decide, rfl⟩

/-- C6 (counterexample): compiling `A = 5; B = A` through the top-level
compiler emits `SET A, 5` — the numeric operand is rendered in decimal,
not as the fixed-width hexadecimal `0x0005` the claim states. -/
theorem c6_decimal_rendering_counterexample :
    (compileProgram 5 scenarioA).1.body = ["SET A, 5", "SET B, A"] ∧
    (compileProgram 5 scenarioA).1.body ≠ ["SET A, 0x0005", "SET B, A"] := by
  exact ⟨by decide, by decide⟩

/-- C6 (amended): the llpy16 assembler's instruction writer renders
numeric operands through `hexify` as canonical fixed-width hexadecimal,
so a SET of `A` to 5 reads `SET A, 0x0005` there and `SET B, A` keeps
its register operands; the top-level compiler's own emitter renders the
same program with the numeric operand in decimal. -/
theorem c6_hexify_rendering :
    LL16.write_instruction_line "SET" [.str "A", .num 5] = "SET A, 0x0005" ∧
    LL16.write_instruction_line "SET" [.str "B", .str "A"] = "SET B, A" ∧
    (compileProgram 5 scenarioA).1.body = ["SET A, 5", "SET B, A"] := by
  exact ⟨by decide, by decide, by decide⟩

/-- C7: a call whose argument count mismatches the signature does not
produce a hard diagnostic — the malformed diagnostic format string
raises TypeError, which propagates with the failure flag still clear and
no diagnostic recorded, aborting compilation; a matching call emits
exactly one push per argument followed by one JSR. -/
theorem c7_arity_mismatch_crash :
    (compileProgram 5 badArityCallProg).2 = .error .typeError ∧
    (compileProgram 5 badArityCallProg).1.failed = false ∧
    (compileProgram 5 badArityCallProg).1.diagnostics = [] ∧
    (compileProgram 5 goodArityCallProg).1.body = ["SET PUSH, 3", "JSR f"] ∧
    (compileProgram 5 goodArityCallProg).2 = .ok () ∧
    (compileProgram 5 goodArityCallProg).1.failed = false := by
  exact ⟨rfl, rfl, by decide, by decide, rfl, rfl⟩

/-- C8 (counterexample): a function body with two return statements of
divergent arities (1, then 2) is not rejected: compilation succeeds
without any diagnostic and registers the function with the last return
statement's arity. -/
theorem c8_divergent_returns_accepted :
    (compileProgram 5 divergentReturnsProg).2 = .ok () ∧
    (compileProgram 5 divergentReturnsProg).1.failed = false ∧
    (compileProgram 5 divergentReturnsProg).1.diagnostics = [] ∧
    assocFind (compileProgram 5 divergentReturnsProg).1.funcSigs "g" =
      some ⟨2, 2⟩ := by
  exact ⟨rfl, rfl, by decide, by decide⟩

/-- C3: for a function of fixed return count n, an assignment whose
right-hand side calls it (with well-formed register targets and a
matching argument list) succeeds exactly when the target count is n —
emitting the argument pushes, the JSR, and one stack pop per target in
reverse target order into the resolved destination register — and any
other target count records a hard arity-mismatch diagnostic before
anything is emitted. -/
theorem c3_call_assign_arity (st : St) (fname : String) (sig : FuncSig)
    (targets : List String) (argNums : List Nat)
    (hsig : assocFind st.funcSigs fname = some sig)
    (hpre : strStarts fname "builtin_" = false)
    (hregs : ∀ t ∈ targets, t ∈ REGISTERS)
    (hargs : argNums.length = sig.numArgs)
    (hfoot : st.inFooter = false) :
    (targets.length = sig.numRetValues →
      call_assign (targets.map Expr.name) (Expr.name fname)
          (argNums.map Expr.num) st =
        ({st with body := st.body ++
            argNums.map (fun n => instructionLine "SET" ["PUSH", toString n]) ++
            [instructionLine "JSR" [fname]] ++
            targets.reverse.map (fun r => instructionLine "SET" [r, "POP"])},
          .ok ())) ∧
    (targets.length ≠ sig.numRetValues →
      call_assign (targets.map Expr.name) (Expr.name fname)
          (argNums.map Expr.num) st =
        (compErr st ("Function " ++ fname ++ " has " ++
          toString sig.numRetValues ++ " return values, but only " ++
          toString targets.length ++ " are given"), .ok ())) := by
  constructor
  · intro heq
    have hrev : ∀ t ∈ targets.reverse, t ∈ REGISTERS := by
      intro t ht
      exact hregs t (List.mem_reverse.mp ht)
    simp only [call_assign, resolveFuncCallName, hsig, List.length_map, heq,
      ne_eq, not_true_eq_false, if_false, ite_false]
    rw [handle_Call_nums st fname sig argNums hsig hpre hargs hfoot]
    have hrw : (targets.map Expr.name).reverse = targets.reverse.map Expr.name := by
      simp
    have step := popTargets_regs targets.reverse
      ({st with body := st.body ++
          argNums.map (fun n => instructionLine "SET" ["PUSH", toString n]) ++
          [instructionLine "JSR" [fname]]})
      hrev hfoot
    dsimp only
    rw [hrw, step]
  · intro hne
    simp only [call_assign, resolveFuncCallName, hsig, List.length_map, hne,
      ne_eq, not_false_eq_true, if_true, ite_true]

/-- C3 witness: the theorem applied to a zero-argument two-return
function `g`; the two-target assignment succeeds and pops into B then A,
and the one-target assignment is a hard arity diagnostic. -/
theorem c3_call_assign_arity_witness :
    call_assign (["A", "B"].map Expr.name) (Expr.name "g")
        (([] : List Nat).map Expr.num) c3State =
      ({c3State with body := c3State.body ++
          ([] : List Nat).map (fun n => instructionLine "SET" ["PUSH", toString n]) ++
          [instructionLine "JSR" ["g"]] ++
          ["A", "B"].reverse.map (fun r => instructionLine "SET" [r, "POP"])},
        .ok ()) ∧
    call_assign (["A"].map Expr.name) (Expr.name "g")
        (([] : List Nat).map Expr.num) c3State =
      (compErr c3State ("Function " ++ "g" ++ " has " ++ toString (2 : Nat) ++
        " return values, but only " ++ toString (1 : Nat) ++ " are given"),
        .ok ()) :=
  ⟨(c3_call_assign_arity c3State "g" ⟨0, 2⟩ ["A", "B"] [] rfl (by decide)
      (by decide) rfl rfl).1 rfl,
   (c3_call_assign_arity c3State "g" ⟨0, 2⟩ ["A"] [] rfl (by decide)
      (by decide) rfl rfl).2 (by decide)⟩

/-- C8 (amended): each compiled return statement overwrites the
function's return-value count with its own arity — regardless of the
count already recorded on the function stack — so the last compiled
return statement wins and divergent arities are never rejected. -/
theorem c8_last_return_wins (st : St) (fs : List FuncSig) (sig : FuncSig)
    (rs : List String)
    (hstack : st.funcStack = fs ++ [sig])
    (hr : ∀ r ∈ rs, r ∈ REGISTERS)
    (hfoot : st.inFooter = true) :
    handle_Return (some (.tup (rs.map Expr.name))) st =
      ({st with
          footer := st.footer ++
            rs.map (fun r => instructionLine "SET" ["PUSH", r]),
          funcStack := fs ++ [{sig with numRetValues := rs.length}]},
        .ok ()) := by
  simp only [handle_Return]
  rw [pushRetElts_regs rs st hr hfoot]
  simp only [setTopRet, hstack, List.getLast?_concat, List.dropLast_concat,
    List.length_map]

/-- C8 amended witness: a return of the tuple `(A, B)` inside a function
whose recorded return count is 0 rewrites the count to 2. -/
theorem c8_last_return_wins_witness :
    handle_Return (some (.tup (["A", "B"].map Expr.name))) c8ReturnState =
      ({c8ReturnState with
          footer := c8ReturnState.footer ++
            ["A", "B"].map (fun r => instructionLine "SET" ["PUSH", r]),
          funcStack := [] ++ [{(⟨2, 0⟩ : FuncSig) with
            numRetValues := (["A", "B"] : List String).length}]},
        .ok ()) :=
  c8_last_return_wins c8ReturnState [] ⟨2, 0⟩ ["A", "B"] rfl (by decide) rfl

/-- C9: break and continue resolve to the innermost loop context (the
top of the loop stack), emitting a jump to its end and start label
respectively; with an empty loop stack each records a hard diagnostic
and returns normally (no stack underflow); and after a top-level break
diagnostic, lowering continues — the compile is marked failed while the
following independent statement still emits its instruction. -/
theorem c9_break_continue_innermost :
    (∀ (st : St) (s e : String) (rest : List (String × String)),
      st.loopstack = rest ++ [(s, e)] → st.inFooter = false →
      handle_builtin_break st =
        ({st with body := st.body ++ [instructionLine "SET" ["PC", e]]},
          .ok ()) ∧
      handle_builtin_continue st =
        ({st with body := st.body ++ [instructionLine "SET" ["PC", s]]},
          .ok ())) ∧
    (∀ st : St, st.loopstack = [] →
      handle_builtin_break st =
        (compErr st "Cannot break outside loop", .ok ()) ∧
      handle_builtin_continue st =
        (compErr st "Cannot continue outside loop", .ok ())) ∧
    ((compileProgram 5 breakTopProg).1.failed = true ∧
     (compileProgram 5 breakTopProg).1.body = ["SET A, 5"] ∧
     (compileProgram 5 breakTopProg).1.diagnostics =
       ["Cannot break outside loop"] ∧
     (compileProgram 5 breakTopProg).2 = .ok ()) := by
  refine ⟨?_, ?_, by decide, by decide, by decide, rfl⟩
  · intro st s e rest h hfoot
    constructor
    · simp only [handle_builtin_break, h, List.getLast?_concat, goto_label]
      rw [write_instruction_body_eq st _ _ hfoot]
      simp [h]
    · simp only [handle_builtin_continue, h, List.getLast?_concat, goto_label]
      rw [write_instruction_body_eq st _ _ hfoot]
      simp [h]
  · intro st h
    constructor
    · simp [handle_builtin_break, h]
    · simp [handle_builtin_continue, h]

/-- C9 witness: with a single loop context on the stack, break jumps to
its end label and continue to its start label. -/
theorem c9_break_continue_innermost_witness :
    handle_builtin_break c9LoopState =
      ({c9LoopState with body := c9LoopState.body ++
          [instructionLine "SET" ["PC", "le"]]}, .ok ()) ∧
    handle_builtin_continue c9LoopState =
      ({c9LoopState with body := c9LoopState.body ++
          [instructionLine "SET" ["PC", "ls"]]}, .ok ()) :=
  c9_break_continue_innermost.1 c9LoopState "ls" "le" [] rfl rfl

/-- C10: a function definition with more than seven parameters is
rejected with a hard diagnostic before anything is emitted (the state is
only extended with the diagnostic); for an accepted definition the
unload loop binds exactly the parameter list as the local aliases, and
the i-th parameter resolves to the i-th of the first seven registers,
which is never the reserved return-address register J. -/
theorem c10_funcdef_parameters :
    (∀ (defName : String) (args : List String)
        (runBody : St → St × Except PyExc Unit) (st : St),
      strStarts defName "builtin_" = false → args.length > 7 →
      handle_FunctionDef defName args runBody st =
        (compErr st "Function definitions may not take more than seven arguments!",
          .ok ())) ∧
    (∀ (args : List String) (st : St) (i : Nat),
      i < args.length → args.length ≤ 7 → args.Nodup →
      (∀ a ∈ args, a ∉ REGISTERS) →
      (unloadArgsLoop args ((List.range args.length).reverse) st []).2 = args ∧
      resolve_registerish {st with localAliases := args} (args.getD i "") =
        .ok (REGISTERS.getD i "") ∧
      REGISTERS.getD i "" ≠ "J") := by
  constructor
  · intro defName args runBody st hpre hgt
    simp only [handle_FunctionDef, hpre, Bool.false_eq_true, if_false,
      ite_false, hgt, if_true, ite_true]
  · intro args st i hi h7 hnd hnr
    have hgetd : args.getD i "" = args[i] := List.getD_eq_getElem args "" hi
    have hmem : args[i] ∈ args := List.getElem_mem hi
    have hnotreg : args[i] ∉ REGISTERS := hnr _ hmem
    have hidx : args.indexOf args[i] = i := List.indexOf_getElem hnd i hi
    have hi7 : i < 7 := Nat.lt_of_lt_of_le hi h7
    refine ⟨?_, ?_, ?_⟩
    · have := unloadArgsLoop_aliases args args.length (Nat.le_refl _) st []
      simpa using this
    · simp only [resolve_registerish, hgetd, hnotreg, if_false, ite_false,
        hmem, if_true, ite_true, hidx]
    · interval_cases i <;> decide

/-- C10 witness: an eight-parameter definition is rejected untouched
except for the diagnostic; for a two-parameter list, parameter 0 is
aliased to register A (not J). -/
theorem c10_funcdef_parameters_witness :
    handle_FunctionDef "f" ["a1", "a2", "a3", "a4", "a5", "a6", "a7", "a8"]
        (fun st => (st, .ok ())) initialState =
      (compErr initialState
        "Function definitions may not take more than seven arguments!",
        .ok ()) ∧
    ((unloadArgsLoop ["x", "y"]
        ((List.range (["x", "y"] : List String).length)).reverse
        initialState []).2 = ["x", "y"] ∧
      resolve_registerish {initialState with localAliases := ["x", "y"]}
        ((["x", "y"] : List String).getD 0 "") = .ok (REGISTERS.getD 0 "") ∧
      REGISTERS.getD 0 "" ≠ "J") :=
  ⟨c10_funcdef_parameters.1 "f" ["a1", "a2", "a3", "a4", "a5", "a6", "a7", "a8"]
      (fun st => (st, .ok ())) initialState (by decide) (by decide),
   c10_funcdef_parameters.2 ["x", "y"] initialState 0 (by decide) (by decide)
      (by decide) (by decide)⟩

end Llpy
